import Mathlib

/-!
Verification of the multi-backend DOM-binding generation pipeline driver
(`dartdomgenerator.py`): the `Generate` pipeline, its backend dispatch loop,
configuration composition (`CreateGeneratorOptions`) and the output-directory
selection in `main`.

The driver is embedded shallowly as a pure function producing a trace of
observable events (stage passes, registry/generator construction,
configuration composition, generator runs, the terminal flush) together with
an optional error, mirroring the Python control flow.  External collaborators
(the IDL database, template engine, the concrete generator classes) are
opaque: their construction and invocation appear as events.  Whether a
backend generator's run succeeds is external behaviour, so the embedding is
parameterised by an oracle `runOk` keyed by the allocation identity of the
generator instance.  A monotone allocation counter gives identity to type
registries and generator instances, which the Python heap provides implicitly.
-/

namespace DartDomGenerator

/-- `os.path.join` for the relative-path second arguments used by the driver. -/
def osJoin (a b : String) : String := a ++ "/" ++ b

/-- The `_webkit_renames` table: W3C -> WebKit name conversion, in source order. -/
def webkitRenames : List (String × String) :=
  [("ApplicationCache", "DOMApplicationCache"),
   ("BarProp", "BarInfo"),
   ("DedicatedWorkerGlobalScope", "DedicatedWorkerContext"),
   ("FormData", "DOMFormData"),
   ("Selection", "DOMSelection"),
   ("SharedWorkerGlobalScope", "SharedWorkerContext"),
   ("Window", "DOMWindow"),
   ("WorkerGlobalScope", "WorkerContext")]

/-- `TemplateLoader(template_dir, template_paths, conditions)`: the ordered
template search configuration captured at composition time. -/
structure TemplateLoader where
  rootDir : String
  searchPaths : List String
  conditions : List (String × Bool)
deriving DecidableEq, Repr

/-- `GeneratorOptions(template_loader, webkit_database, emitters, type_registry,
renamer, output_dir)`.  The database and emitter are the single shared
instances of the run, so only the per-configuration data is recorded; the
type registry is identified by its allocation id and the renamer by its
presence. -/
structure GeneratorOptions where
  templateLoader : TemplateLoader
  registryId : Nat
  renamer : Bool
  outputDir : String
deriving DecidableEq, Repr

/-- The nested `CreateGeneratorOptions` helper: builds a `TemplateLoader` from
the captured `template_dir` and the given paths and conditions, and packages
it into a `GeneratorOptions`. -/
def CreateGeneratorOptions (templateDir : String) (templatePaths : List String)
    (conditions : List (String × Bool)) (typeRegistry : Nat) (outputDir : String)
    (renamer : Bool) : GeneratorOptions :=
  { templateLoader :=
      { rootDir := templateDir, searchPaths := templatePaths, conditions := conditions }
    registryId := typeRegistry
    renamer := renamer
    outputDir := outputDir }

/-- The concrete generator ("system") classes instantiated by the dispatch loop. -/
inductive SystemKind
  | interfacesSystem
  | dummyImplementationSystem
  | frogSystem
  | htmlInterfacesSystem
  | htmlFrogSystem
  | nativeImplementationSystem
deriving DecidableEq, Repr

/-- Observable actions of one `Generate` run, in program order. -/
inductive Event
  | loadAuxiliary
  | loadFromCache
  | load
  | filterMembersWithUnidentifiedTypes
  | clone
  | filterInterfaces
  | renameTypes (renames : List (String × String)) (strict : Bool)
  | fixEventTargets
  | newTypeRegistry (id : Nat) (withRenamer : Bool)
  | createOptions (opts : GeneratorOptions)
  | construct (id : Nat) (kind : SystemKind) (opts : GeneratorOptions) (dep : Option Nat)
  | setInterfaceSystem (implId : Nat) (interfaceId : Nat)
  | run (id : Nat) (kind : SystemKind)
  | flush
deriving DecidableEq, Repr

/-- The ways a `Generate` run can raise. -/
inductive GenError
  | unsupportedSystemName (name : String)
  | generationFailed (id : Nat) (kind : SystemKind)
deriving DecidableEq, Repr

/-- Result of dispatching one backend identifier: the events it performed, the
allocation counter afterwards, and the error it raised, if any. -/
structure DispatchResult where
  events : List Event
  nextId : Nat
  error : Option GenError
deriving DecidableEq, Repr

/-- Result of a run: the events performed and the error raised, if any. -/
structure RunResult where
  events : List Event
  error : Option GenError
deriving DecidableEq, Repr

/-- Execute the `Generate(system)` calls of one dispatch in order, stopping at
the first failing run (`runOk` false for that generator instance). -/
def runSystems (runOk : Nat → Bool) : List (Nat × SystemKind) → RunResult
  | [] => { events := [], error := none }
  | (id, k) :: rest =>
    if runOk id then
      let r := runSystems runOk rest
      { events := Event.run id k :: r.events, error := r.error }
    else
      { events := [Event.run id k], error := some (GenError.generationFailed id k) }

/-- One iteration of the backend dispatch loop, for identifier `name`, with
allocation counter `n` (ids `n`, `n+1`, `n+2` are handed to the type registry
and the generator instances in construction order). -/
def genSystem (runOk : Nat → Bool) (templateDir domOutputDir htmlOutputDir : String)
    (n : Nat) (name : String) : DispatchResult :=
  if name ∈ ["htmlfrog", "htmldartium"] then
    -- renamer = HtmlRenamer(webkit_database); type_registry = TypeRegistry(db, renamer)
    let implOpts :=
      if name = "htmlfrog" then
        CreateGeneratorOptions templateDir ["html/frog", "html/impl", "html", ""]
          [("DARTIUM", false), ("FROG", true)] n htmlOutputDir true
      else
        CreateGeneratorOptions templateDir ["dom/native", "html/dartium", "html/impl", ""]
          [("DARTIUM", true), ("FROG", false)] n htmlOutputDir true
    let implKind :=
      if name = "htmlfrog" then SystemKind.htmlFrogSystem
      else SystemKind.nativeImplementationSystem
    let ifaceOpts := CreateGeneratorOptions templateDir
      ["html/interface", "html/impl", "html", ""] [] n htmlOutputDir true
    let r := runSystems runOk [(n + 2, SystemKind.htmlInterfacesSystem)]
    { events :=
        [Event.newTypeRegistry n true,
         Event.createOptions implOpts,
         Event.construct (n + 1) implKind implOpts none,
         Event.createOptions ifaceOpts,
         Event.construct (n + 2) SystemKind.htmlInterfacesSystem ifaceOpts (some (n + 1))]
        ++ r.events
      nextId := n + 3
      error := r.error }
  else
    -- type_registry = TypeRegistry(webkit_database)
    let ifaceOpts := CreateGeneratorOptions templateDir ["dom/interface", "dom", ""] []
      n domOutputDir false
    let setup :=
      [Event.newTypeRegistry n false,
       Event.createOptions ifaceOpts,
       Event.construct (n + 1) SystemKind.interfacesSystem ifaceOpts none]
    if name = "dummy" then
      let implOpts := CreateGeneratorOptions templateDir ["dom/dummy", "dom", ""] []
        n domOutputDir false
      let r := runSystems runOk
        [(n + 1, SystemKind.interfacesSystem), (n + 2, SystemKind.dummyImplementationSystem)]
      { events := setup ++
          [Event.createOptions implOpts,
           Event.construct (n + 2) SystemKind.dummyImplementationSystem implOpts none,
           Event.setInterfaceSystem (n + 2) (n + 1)]
          ++ r.events
        nextId := n + 3
        error := r.error }
    else if name = "frog" then
      let implOpts := CreateGeneratorOptions templateDir ["dom/frog", "dom", ""] []
        n domOutputDir false
      let r := runSystems runOk
        [(n + 1, SystemKind.interfacesSystem), (n + 2, SystemKind.frogSystem)]
      { events := setup ++
          [Event.createOptions implOpts,
           Event.construct (n + 2) SystemKind.frogSystem implOpts none,
           Event.setInterfaceSystem (n + 2) (n + 1)]
          ++ r.events
        nextId := n + 3
        error := r.error }
    else
      -- raise Exception('Unsupported system_name %s' % system_name)
      { events := setup
        nextId := n + 2
        error := some (GenError.unsupportedSystemName name) }

/-- The `for system_name in system_names` loop: dispatch each identifier in
order, propagating the first error. -/
def genLoop (runOk : Nat → Bool) (templateDir domOutputDir htmlOutputDir : String) :
    Nat → List String → RunResult
  | _, [] => { events := [], error := none }
  | n, name :: rest =>
    let d := genSystem runOk templateDir domOutputDir htmlOutputDir n name
    match d.error with
    | some e => { events := d.events, error := some e }
    | none =>
      let r := genLoop runOk templateDir domOutputDir htmlOutputDir d.nextId rest
      { events := d.events ++ r.events, error := r.error }

/-- The fixed pipeline stages `Generate` performs before the dispatch loop:
auxiliary load, database load (cached or fresh), the global prune of members
with unidentifiable types, the working clone, the interface filter, the strict
rename with `_webkit_renames`, and the event-target fix. -/
def stageEvents (useDatabaseCache : Bool) : List Event :=
  [Event.loadAuxiliary,
   (if useDatabaseCache then Event.loadFromCache else Event.load),
   Event.filterMembersWithUnidentifiedTypes,
   Event.clone,
   Event.filterInterfaces,
   Event.renameTypes webkitRenames true,
   Event.fixEventTargets]

/-- The pipeline driver `Generate(system_names, database_dir,
use_database_cache, dom_output_dir, html_output_dir)`: the fixed stages, the
dispatch loop, and the terminal `emitters.Flush()` (reached only when no
error was raised). -/
def Generate (runOk : Nat → Bool) (systemNames : List String)
    (useDatabaseCache : Bool) (templateDir domOutputDir htmlOutputDir : String) :
    RunResult :=
  let r := genLoop runOk templateDir domOutputDir htmlOutputDir 0 systemNames
  match r.error with
  | some e => { events := stageEvents useDatabaseCache ++ r.events, error := some e }
  | none =>
    { events := stageEvents useDatabaseCache ++ r.events ++ [Event.flush], error := none }

/-- Python `a or b` on the optparse `--output-dir` value: `None` and the empty
string are falsy. -/
def pyOrDefault (value : Option String) (fallback : String) : String :=
  match value with
  | some s => if s = "" then fallback else s
  | none => fallback

/-- `dom_output_dir = options.output_dir or os.path.join(current_dir, '../generated')`. -/
def mainDomOutputDir (currentDir : String) (outputDirOpt : Option String) : String :=
  pyOrDefault outputDirOpt (osJoin currentDir "../generated")

/-- `html_output_dir = options.output_dir or os.path.join(current_dir,
'../../html/generated')`. -/
def mainHtmlOutputDir (currentDir : String) (outputDirOpt : Option String) : String :=
  pyOrDefault outputDirOpt (osJoin currentDir "../../html/generated")

/-- Arguments of one `CreateGeneratorOptions` call, for stating that
composition is insensitive to the surrounding call sequence. -/
structure ComposeArgs where
  templateDir : String
  templatePaths : List String
  conditions : List (String × Bool)
  typeRegistry : Nat
  outputDir : String
  renamer : Bool
deriving DecidableEq, Repr

/-- Compose a sequence of configurations, one per call, in order. -/
def composeAll (calls : List ComposeArgs) : List GeneratorOptions :=
  calls.map fun a =>
    CreateGeneratorOptions a.templateDir a.templatePaths a.conditions
      a.typeRegistry a.outputDir a.renamer

/-- The type-registry allocation ids appearing in a trace, in order. -/
def registryIds (tr : List Event) : List Nat :=
  tr.filterMap fun e =>
    match e with
    | Event.newTypeRegistry i _ => some i
    | _ => none

/-- The condition-flag mapping each generator class is composed with:
empty everywhere except the two html-style implementation generators. -/
def condFlags : SystemKind → List (String × Bool)
  | SystemKind.htmlFrogSystem => [("DARTIUM", false), ("FROG", true)]
  | SystemKind.nativeImplementationSystem => [("DARTIUM", true), ("FROG", false)]
  | _ => []

/-- Events the dispatch loop can perform (everything except the stage passes
and the terminal flush). -/
def isDispatchEvent : Event → Bool
  | Event.newTypeRegistry _ _ => true
  | Event.createOptions _ => true
  | Event.construct _ _ _ _ => true
  | Event.setInterfaceSystem _ _ => true
  | Event.run _ _ => true
  | _ => false

theorem runSystems_events_run (runOk : Nat → Bool) (l : List (Nat × SystemKind)) :
    ∀ e ∈ (runSystems runOk l).events, ∃ id k, e = Event.run id k := by
  induction l with
  | nil => simp [runSystems]
  | cons hd tl ih =>
    obtain ⟨id, k⟩ := hd
    by_cases h : runOk id
    · simp only [runSystems, h, if_pos]
      intro e he
      rcases List.mem_cons.mp he with rfl | he
      · exact ⟨id, k, rfl⟩
      · exact ih e he
    · simp only [runSystems, h, if_neg, Bool.false_eq_true, not_false_iff]
      intro e he
      rcases List.mem_cons.mp he with rfl | he
      · exact ⟨id, k, rfl⟩
      · simp at he

theorem runSystems_error_none (runOk : Nat → Bool) (l : List (Nat × SystemKind))
    (hok : ∀ i, runOk i = true) : (runSystems runOk l).error = none := by
  induction l with
  | nil => simp [runSystems]
  | cons hd tl ih =>
    obtain ⟨id, k⟩ := hd
    simp [runSystems, hok id, ih]

theorem runSystems_failed_last (runOk : Nat → Bool) (l : List (Nat × SystemKind))
    (id : Nat) (k : SystemKind)
    (h : (runSystems runOk l).error = some (GenError.generationFailed id k)) :
    ∃ p, (runSystems runOk l).events = p ++ [Event.run id k] := by
  induction l with
  | nil => simp [runSystems] at h
  | cons hd tl ih =>
    obtain ⟨i, kk⟩ := hd
    by_cases hok : runOk i
    · simp only [runSystems, hok, if_pos] at h ⊢
      obtain ⟨p, hp⟩ := ih h
      exact ⟨Event.run i kk :: p, by simp [hp]⟩
    · simp only [runSystems, hok, if_neg, Bool.false_eq_true, not_false_iff] at h ⊢
      obtain ⟨rfl, rfl⟩ : i = id ∧ kk = k := by
        have := Option.some.inj h
        cases this
        exact ⟨rfl, rfl⟩
      exact ⟨[], rfl⟩

theorem genSystem_eq_of_htmlfrog (runOk : Nat → Bool) (td dom html : String) (n : Nat) :
    genSystem runOk td dom html n "htmlfrog" =
      { events :=
          [Event.newTypeRegistry n true,
           Event.createOptions (CreateGeneratorOptions td ["html/frog", "html/impl", "html", ""]
             [("DARTIUM", false), ("FROG", true)] n html true),
           Event.construct (n + 1) SystemKind.htmlFrogSystem
             (CreateGeneratorOptions td ["html/frog", "html/impl", "html", ""]
               [("DARTIUM", false), ("FROG", true)] n html true) none,
           Event.createOptions (CreateGeneratorOptions td
             ["html/interface", "html/impl", "html", ""] [] n html true),
           Event.construct (n + 2) SystemKind.htmlInterfacesSystem
             (CreateGeneratorOptions td ["html/interface", "html/impl", "html", ""] [] n html true)
             (some (n + 1))]
          ++ (runSystems runOk [(n + 2, SystemKind.htmlInterfacesSystem)]).events
        nextId := n + 3
        error := (runSystems runOk [(n + 2, SystemKind.htmlInterfacesSystem)]).error } := by
  simp [genSystem]

theorem genSystem_eq_of_htmldartium (runOk : Nat → Bool) (td dom html : String) (n : Nat) :
    genSystem runOk td dom html n "htmldartium" =
      { events :=
          [Event.newTypeRegistry n true,
           Event.createOptions (CreateGeneratorOptions td
             ["dom/native", "html/dartium", "html/impl", ""]
             [("DARTIUM", true), ("FROG", false)] n html true),
           Event.construct (n + 1) SystemKind.nativeImplementationSystem
             (CreateGeneratorOptions td ["dom/native", "html/dartium", "html/impl", ""]
               [("DARTIUM", true), ("FROG", false)] n html true) none,
           Event.createOptions (CreateGeneratorOptions td
             ["html/interface", "html/impl", "html", ""] [] n html true),
           Event.construct (n + 2) SystemKind.htmlInterfacesSystem
             (CreateGeneratorOptions td ["html/interface", "html/impl", "html", ""] [] n html true)
             (some (n + 1))]
          ++ (runSystems runOk [(n + 2, SystemKind.htmlInterfacesSystem)]).events
        nextId := n + 3
        error := (runSystems runOk [(n + 2, SystemKind.htmlInterfacesSystem)]).error } := by
  simp [genSystem]

theorem genSystem_eq_of_dummy (runOk : Nat → Bool) (td dom html : String) (n : Nat) :
    genSystem runOk td dom html n "dummy" =
      { events :=
          [Event.newTypeRegistry n false,
           Event.createOptions (CreateGeneratorOptions td ["dom/interface", "dom", ""] []
             n dom false),
           Event.construct (n + 1) SystemKind.interfacesSystem
             (CreateGeneratorOptions td ["dom/interface", "dom", ""] [] n dom false) none,
           Event.createOptions (CreateGeneratorOptions td ["dom/dummy", "dom", ""] [] n dom false),
           Event.construct (n + 2) SystemKind.dummyImplementationSystem
             (CreateGeneratorOptions td ["dom/dummy", "dom", ""] [] n dom false) none,
           Event.setInterfaceSystem (n + 2) (n + 1)]
          ++ (runSystems runOk [(n + 1, SystemKind.interfacesSystem),
                (n + 2, SystemKind.dummyImplementationSystem)]).events
        nextId := n + 3
        error := (runSystems runOk [(n + 1, SystemKind.interfacesSystem),
          (n + 2, SystemKind.dummyImplementationSystem)]).error } := by
  simp [genSystem]

theorem genSystem_eq_of_frog (runOk : Nat → Bool) (td dom html : String) (n : Nat) :
    genSystem runOk td dom html n "frog" =
      { events :=
          [Event.newTypeRegistry n false,
           Event.createOptions (CreateGeneratorOptions td ["dom/interface", "dom", ""] []
             n dom false),
           Event.construct (n + 1) SystemKind.interfacesSystem
             (CreateGeneratorOptions td ["dom/interface", "dom", ""] [] n dom false) none,
           Event.createOptions (CreateGeneratorOptions td ["dom/frog", "dom", ""] [] n dom false),
           Event.construct (n + 2) SystemKind.frogSystem
             (CreateGeneratorOptions td ["dom/frog", "dom", ""] [] n dom false) none,
           Event.setInterfaceSystem (n + 2) (n + 1)]
          ++ (runSystems runOk [(n + 1, SystemKind.interfacesSystem),
                (n + 2, SystemKind.frogSystem)]).events
        nextId := n + 3
        error := (runSystems runOk [(n + 1, SystemKind.interfacesSystem),
          (n + 2, SystemKind.frogSystem)]).error } := by
  simp [genSystem]

theorem genSystem_eq_of_unknown (runOk : Nat → Bool) (td dom html : String) (n : Nat)
    (name : String) (h : name ∉ ["htmlfrog", "htmldartium", "dummy", "frog"]) :
    genSystem runOk td dom html n name =
      { events :=
          [Event.newTypeRegistry n false,
           Event.createOptions (CreateGeneratorOptions td ["dom/interface", "dom", ""] []
             n dom false),
           Event.construct (n + 1) SystemKind.interfacesSystem
             (CreateGeneratorOptions td ["dom/interface", "dom", ""] [] n dom false) none]
        nextId := n + 2
        error := some (GenError.unsupportedSystemName name) } := by
  simp only [List.mem_cons, List.not_mem_nil, or_false, not_or] at h
  obtain ⟨h1, h2, h3, h4⟩ := h
  simp [genSystem, h1, h2, h3, h4]

theorem genSystem_events_dispatch (runOk : Nat → Bool) (td dom html : String) (n : Nat)
    (name : String) :
    ∀ e ∈ (genSystem runOk td dom html n name).events, isDispatchEvent e = true := by
  by_cases h1 : name = "htmlfrog"
  · subst h1
    rw [genSystem_eq_of_htmlfrog]
    intro e he
    rcases List.mem_append.mp he with h | h
    · simp only [List.mem_cons, List.not_mem_nil, or_false] at h
      rcases h with rfl | rfl | rfl | rfl | rfl <;> rfl
    · obtain ⟨id, k, rfl⟩ := runSystems_events_run _ _ e h
      rfl
  by_cases h2 : name = "htmldartium"
  · subst h2
    rw [genSystem_eq_of_htmldartium]
    intro e he
    rcases List.mem_append.mp he with h | h
    · simp only [List.mem_cons, List.not_mem_nil, or_false] at h
      rcases h with rfl | rfl | rfl | rfl | rfl <;> rfl
    · obtain ⟨id, k, rfl⟩ := runSystems_events_run _ _ e h
      rfl
  by_cases h3 : name = "dummy"
  · subst h3
    rw [genSystem_eq_of_dummy]
    intro e he
    rcases List.mem_append.mp he with h | h
    · simp only [List.mem_cons, List.not_mem_nil, or_false] at h
      rcases h with rfl | rfl | rfl | rfl | rfl | rfl <;> rfl
    · obtain ⟨id, k, rfl⟩ := runSystems_events_run _ _ e h
      rfl
  by_cases h4 : name = "frog"
  · subst h4
    rw [genSystem_eq_of_frog]
    intro e he
    rcases List.mem_append.mp he with h | h
    · simp only [List.mem_cons, List.not_mem_nil, or_false] at h
      rcases h with rfl | rfl | rfl | rfl | rfl | rfl <;> rfl
    · obtain ⟨id, k, rfl⟩ := runSystems_events_run _ _ e h
      rfl
  rw [genSystem_eq_of_unknown runOk td dom html n name (by simp [h1, h2, h3, h4])]
  intro e he
  simp only [List.mem_cons, List.not_mem_nil, or_false] at he
  rcases he with rfl | rfl | rfl <;> rfl

theorem genLoop_events_dispatch (runOk : Nat → Bool) (td dom html : String) :
    ∀ (names : List String) (n : Nat),
      ∀ e ∈ (genLoop runOk td dom html n names).events, isDispatchEvent e = true := by
  intro names
  induction names with
  | nil => intro n e he; simp [genLoop] at he
  | cons name rest ih =>
    intro n e he
    simp only [genLoop] at he
    cases hd : (genSystem runOk td dom html n name).error with
    | some err =>
      rw [hd] at he
      exact genSystem_events_dispatch runOk td dom html n name e he
    | none =>
      rw [hd] at he
      rcases List.mem_append.mp he with h | h
      · exact genSystem_events_dispatch runOk td dom html n name e h
      · exact ih _ e h

theorem flush_not_in_genLoop (runOk : Nat → Bool) (td dom html : String)
    (names : List String) (n : Nat) :
    Event.flush ∉ (genLoop runOk td dom html n names).events := by
  intro h
  have := genLoop_events_dispatch runOk td dom html names n Event.flush h
  simp [isDispatchEvent] at this

theorem prune_not_in_genLoop (runOk : Nat → Bool) (td dom html : String)
    (names : List String) (n : Nat) :
    Event.filterMembersWithUnidentifiedTypes ∉ (genLoop runOk td dom html n names).events := by
  intro h
  have := genLoop_events_dispatch runOk td dom html names n
    Event.filterMembersWithUnidentifiedTypes h
  simp [isDispatchEvent] at this

theorem flush_not_in_stageEvents (b : Bool) : Event.flush ∉ stageEvents b := by
  cases b <;> decide

theorem Generate_eq_of_error (runOk : Nat → Bool) (names : List String) (cache : Bool)
    (td dom html : String) (e : GenError)
    (h : (genLoop runOk td dom html 0 names).error = some e) :
    Generate runOk names cache td dom html =
      { events := stageEvents cache ++ (genLoop runOk td dom html 0 names).events
        error := some e } := by
  simp [Generate, h]

theorem Generate_eq_of_ok (runOk : Nat → Bool) (names : List String) (cache : Bool)
    (td dom html : String)
    (h : (genLoop runOk td dom html 0 names).error = none) :
    Generate runOk names cache td dom html =
      { events := stageEvents cache ++ (genLoop runOk td dom html 0 names).events
          ++ [Event.flush]
        error := none } := by
  simp [Generate, h]

theorem registryIds_append (a b : List Event) :
    registryIds (a ++ b) = registryIds a ++ registryIds b := by
  simp [registryIds, List.filterMap_append]

theorem runSystems_registryIds (runOk : Nat → Bool) (l : List (Nat × SystemKind)) :
    registryIds (runSystems runOk l).events = [] := by
  induction l with
  | nil => simp [runSystems, registryIds]
  | cons hd tl ih =>
    obtain ⟨id, k⟩ := hd
    by_cases h : runOk id
    · simpa [runSystems, h, registryIds] using ih
    · simp [runSystems, h, registryIds]

theorem genSystem_registryIds (runOk : Nat → Bool) (td dom html : String) (n : Nat)
    (name : String) :
    registryIds (genSystem runOk td dom html n name).events = [n] := by
  by_cases h1 : name = "htmlfrog"
  · subst h1
    rw [genSystem_eq_of_htmlfrog]
    show registryIds (_ ++ _) = [n]
    rw [registryIds_append, runSystems_registryIds]
    simp [registryIds]
  by_cases h2 : name = "htmldartium"
  · subst h2
    rw [genSystem_eq_of_htmldartium]
    show registryIds (_ ++ _) = [n]
    rw [registryIds_append, runSystems_registryIds]
    simp [registryIds]
  by_cases h3 : name = "dummy"
  · subst h3
    rw [genSystem_eq_of_dummy]
    show registryIds (_ ++ _) = [n]
    rw [registryIds_append, runSystems_registryIds]
    simp [registryIds]
  by_cases h4 : name = "frog"
  · subst h4
    rw [genSystem_eq_of_frog]
    show registryIds (_ ++ _) = [n]
    rw [registryIds_append, runSystems_registryIds]
    simp [registryIds]
  rw [genSystem_eq_of_unknown runOk td dom html n name (by simp [h1, h2, h3, h4])]
  simp [registryIds]

theorem genSystem_nextId_gt (runOk : Nat → Bool) (td dom html : String) (n : Nat)
    (name : String) : n < (genSystem runOk td dom html n name).nextId := by
  by_cases h1 : name = "htmlfrog"
  · subst h1; rw [genSystem_eq_of_htmlfrog]; show n < n + 3; omega
  by_cases h2 : name = "htmldartium"
  · subst h2; rw [genSystem_eq_of_htmldartium]; show n < n + 3; omega
  by_cases h3 : name = "dummy"
  · subst h3; rw [genSystem_eq_of_dummy]; show n < n + 3; omega
  by_cases h4 : name = "frog"
  · subst h4; rw [genSystem_eq_of_frog]; show n < n + 3; omega
  rw [genSystem_eq_of_unknown runOk td dom html n name (by simp [h1, h2, h3, h4])]
  show n < n + 2
  omega

theorem genLoop_registryIds_ge (runOk : Nat → Bool) (td dom html : String) :
    ∀ (names : List String) (n i : Nat),
      i ∈ registryIds (genLoop runOk td dom html n names).events → n ≤ i := by
  intro names
  induction names with
  | nil => intro n i h; simp [genLoop, registryIds] at h
  | cons name rest ih =>
    intro n i h
    simp only [genLoop] at h
    cases hd : (genSystem runOk td dom html n name).error with
    | some e =>
      rw [hd] at h
      rw [genSystem_registryIds] at h
      simp at h
      omega
    | none =>
      rw [hd] at h
      rw [registryIds_append, genSystem_registryIds] at h
      rcases List.mem_append.mp h with h | h
      · simp at h; omega
      · have h1 := ih _ i h
        have h2 := genSystem_nextId_gt runOk td dom html n name
        omega

theorem genLoop_registryIds_pairwise (runOk : Nat → Bool) (td dom html : String) :
    ∀ (names : List String) (n : Nat),
      List.Pairwise (· < ·) (registryIds (genLoop runOk td dom html n names).events) := by
  intro names
  induction names with
  | nil => intro n; simp [genLoop, registryIds]
  | cons name rest ih =>
    intro n
    simp only [genLoop]
    cases hd : (genSystem runOk td dom html n name).error with
    | some e =>
      show List.Pairwise (· < ·)
        (registryIds (genSystem runOk td dom html n name).events)
      rw [genSystem_registryIds]
      simp
    | none =>
      show List.Pairwise (· < ·) (registryIds
        ((genSystem runOk td dom html n name).events ++
          (genLoop runOk td dom html (genSystem runOk td dom html n name).nextId rest).events))
      rw [registryIds_append, genSystem_registryIds, List.singleton_append]
      refine List.pairwise_cons.mpr ⟨?_, ih _⟩
      intro b hb
      have h1 := genLoop_registryIds_ge runOk td dom html rest _ b hb
      have h2 := genSystem_nextId_gt runOk td dom html n name
      omega

theorem stageEvents_registryIds (b : Bool) : registryIds (stageEvents b) = [] := by
  cases b <;> rfl

/-- C1: every `Generate` run performs, in order, the database load (from cache
exactly when `use_database_cache` is set), the single global prune of members
with unidentifiable types, the working clone, the interface filter, the strict
rename with the fixed W3C-to-WebKit map, and `FixEventTargets` immediately
after the rename, before anything else happens; the prune never recurs later,
and no generator run occurs among these stages. -/
theorem generate_stage_order (runOk : Nat → Bool) (systemNames : List String)
    (useDatabaseCache : Bool) (templateDir domOutputDir htmlOutputDir : String) :
    ∃ tail,
      (Generate runOk systemNames useDatabaseCache templateDir domOutputDir
          htmlOutputDir).events =
        [Event.loadAuxiliary,
         (if useDatabaseCache then Event.loadFromCache else Event.load),
         Event.filterMembersWithUnidentifiedTypes,
         Event.clone,
         Event.filterInterfaces,
         Event.renameTypes webkitRenames true,
         Event.fixEventTargets] ++ tail ∧
      Event.filterMembersWithUnidentifiedTypes ∉ tail ∧
      ∀ id k, Event.run id k ∉
        [Event.loadAuxiliary,
         (if useDatabaseCache then Event.loadFromCache else Event.load),
         Event.filterMembersWithUnidentifiedTypes,
         Event.clone,
         Event.filterInterfaces,
         Event.renameTypes webkitRenames true,
         Event.fixEventTargets] := by
  cases herr : (genLoop runOk templateDir domOutputDir htmlOutputDir 0 systemNames).error with
  | some e =>
    refine ⟨(genLoop runOk templateDir domOutputDir htmlOutputDir 0 systemNames).events,
      ?_, ?_, ?_⟩
    · rw [Generate_eq_of_error _ _ _ _ _ _ e herr]
      rfl
    · exact prune_not_in_genLoop runOk templateDir domOutputDir htmlOutputDir systemNames 0
    · intro id k h
      cases useDatabaseCache <;> simp at h
  | none =>
    refine ⟨(genLoop runOk templateDir domOutputDir htmlOutputDir 0 systemNames).events
        ++ [Event.flush], ?_, ?_, ?_⟩
    · rw [Generate_eq_of_ok _ _ _ _ _ _ herr]
      simp [stageEvents]
    · intro h
      rcases List.mem_append.mp h with h | h
      · exact prune_not_in_genLoop runOk templateDir domOutputDir htmlOutputDir
          systemNames 0 h
      · simp at h
    · intro id k h
      cases useDatabaseCache <;> simp at h

theorem genSystem_error_none_of_known (runOk : Nat → Bool) (td dom html : String) (n : Nat)
    (name : String) (hok : ∀ i, runOk i = true)
    (h : name ∈ ["htmlfrog", "htmldartium", "dummy", "frog"]) :
    (genSystem runOk td dom html n name).error = none := by
  simp only [List.mem_cons, List.not_mem_nil, or_false] at h
  rcases h with rfl | rfl | rfl | rfl
  · rw [genSystem_eq_of_htmlfrog]; exact runSystems_error_none _ _ hok
  · rw [genSystem_eq_of_htmldartium]; exact runSystems_error_none _ _ hok
  · rw [genSystem_eq_of_dummy]; exact runSystems_error_none _ _ hok
  · rw [genSystem_eq_of_frog]; exact runSystems_error_none _ _ hok

theorem genLoop_error_unknown (runOk : Nat → Bool) (td dom html : String)
    (hok : ∀ i, runOk i = true) :
    ∀ (names : List String) (n : Nat) (bad : String),
      bad ∈ names → bad ∉ ["htmlfrog", "htmldartium", "dummy", "frog"] →
      ∃ b, b ∈ names ∧ b ∉ ["htmlfrog", "htmldartium", "dummy", "frog"] ∧
        (genLoop runOk td dom html n names).error =
          some (GenError.unsupportedSystemName b) := by
  intro names
  induction names with
  | nil => intro n bad h _; simp at h
  | cons name rest ih =>
    intro n bad hmem hbad
    by_cases hname : name ∈ ["htmlfrog", "htmldartium", "dummy", "frog"]
    · have herr := genSystem_error_none_of_known runOk td dom html n name hok hname
      have hbadrest : bad ∈ rest := by
        rcases List.mem_cons.mp hmem with rfl | h
        · exact absurd hname hbad
        · exact h
      obtain ⟨b, hb1, hb2, hb3⟩ := ih _ bad hbadrest hbad
      refine ⟨b, List.mem_cons_of_mem _ hb1, hb2, ?_⟩
      simp only [genLoop]
      rw [herr]
      exact hb3
    · refine ⟨name, List.mem_cons_self _ _, hname, ?_⟩
      simp only [genLoop]
      rw [genSystem_eq_of_unknown runOk td dom html n name hname]

theorem exists_append_singleton_cons {p : List Event} {x e : Event}
    (h : ∃ q, p = q ++ [x]) : ∃ q, e :: p = q ++ [x] := by
  obtain ⟨q, rfl⟩ := h
  exact ⟨e :: q, rfl⟩

theorem exists_append_singleton_of_append {l p : List Event} {x : Event}
    (h : ∃ q, p = q ++ [x]) : ∃ q, l ++ p = q ++ [x] := by
  obtain ⟨q, rfl⟩ := h
  exact ⟨l ++ q, by simp⟩

theorem genSystem_failed_last (runOk : Nat → Bool) (td dom html : String) (n : Nat)
    (name : String) (id : Nat) (k : SystemKind)
    (h : (genSystem runOk td dom html n name).error =
      some (GenError.generationFailed id k)) :
    ∃ p, (genSystem runOk td dom html n name).events = p ++ [Event.run id k] := by
  by_cases h1 : name = "htmlfrog"
  · subst h1
    simp only [genSystem_eq_of_htmlfrog] at h ⊢
    exact exists_append_singleton_of_append (runSystems_failed_last _ _ _ _ h)
  by_cases h2 : name = "htmldartium"
  · subst h2
    simp only [genSystem_eq_of_htmldartium] at h ⊢
    exact exists_append_singleton_of_append (runSystems_failed_last _ _ _ _ h)
  by_cases h3 : name = "dummy"
  · subst h3
    simp only [genSystem_eq_of_dummy] at h ⊢
    exact exists_append_singleton_of_append (runSystems_failed_last _ _ _ _ h)
  by_cases h4 : name = "frog"
  · subst h4
    simp only [genSystem_eq_of_frog] at h ⊢
    exact exists_append_singleton_of_append (runSystems_failed_last _ _ _ _ h)
  rw [genSystem_eq_of_unknown runOk td dom html n name (by simp [h1, h2, h3, h4])] at h
  simp at h

theorem genLoop_failed_last (runOk : Nat → Bool) (td dom html : String) :
    ∀ (names : List String) (n : Nat) (id : Nat) (k : SystemKind),
      (genLoop runOk td dom html n names).error =
        some (GenError.generationFailed id k) →
      ∃ p, (genLoop runOk td dom html n names).events = p ++ [Event.run id k] := by
  intro names
  induction names with
  | nil => intro n id k h; simp [genLoop] at h
  | cons name rest ih =>
    intro n id k h
    simp only [genLoop] at h ⊢
    cases hd : (genSystem runOk td dom html n name).error with
    | some e =>
      rw [hd] at h
      obtain rfl : e = GenError.generationFailed id k := Option.some.inj h
      obtain ⟨p, hp⟩ := genSystem_failed_last runOk td dom html n name id k hd
      exact ⟨p, hp⟩
    | none =>
      rw [hd] at h
      exact exists_append_singleton_of_append (ih _ id k h)

/-- C2: when the requested identifier list contains an identifier outside
`{htmlfrog, htmldartium, dummy, frog}` (and no generator run fails on its
own), the run stops with an error naming an offending identifier, and the
terminal flush of the buffered writer never happens, so no output is produced
for any backend of that run. -/
theorem unknown_backend_aborts_run (runOk : Nat → Bool) (systemNames : List String)
    (cache : Bool) (td dom html : String) (bad : String)
    (hok : ∀ i, runOk i = true)
    (hmem : bad ∈ systemNames)
    (hbad : bad ∉ ["htmlfrog", "htmldartium", "dummy", "frog"]) :
    (∃ b, b ∈ systemNames ∧ b ∉ ["htmlfrog", "htmldartium", "dummy", "frog"] ∧
      (Generate runOk systemNames cache td dom html).error =
        some (GenError.unsupportedSystemName b)) ∧
    Event.flush ∉ (Generate runOk systemNames cache td dom html).events := by
  obtain ⟨b, hb1, hb2, hb3⟩ :=
    genLoop_error_unknown runOk td dom html hok systemNames 0 bad hmem hbad
  constructor
  · exact ⟨b, hb1, hb2, by rw [Generate_eq_of_error _ _ _ _ _ _ _ hb3]⟩
  · rw [Generate_eq_of_error _ _ _ _ _ _ _ hb3]
    intro h
    rcases List.mem_append.mp h with h | h
    · exact flush_not_in_stageEvents cache h
    · exact flush_not_in_genLoop runOk td dom html systemNames 0 h

theorem unknown_backend_aborts_run_witness :
    (∃ b, b ∈ ["frog", "bogus"] ∧ b ∉ ["htmlfrog", "htmldartium", "dummy", "frog"] ∧
      (Generate (fun _ => true) ["frog", "bogus"] false "t" "d" "h").error =
        some (GenError.unsupportedSystemName b)) ∧
    Event.flush ∉ (Generate (fun _ => true) ["frog", "bogus"] false "t" "d" "h").events :=
  unknown_backend_aborts_run (fun _ => true) ["frog", "bogus"] false "t" "d" "h" "bogus"
    (fun _ => rfl) (by decide) (by decide)

/-- C3 counterexample: requesting only the unknown identifier `"bogus"` raises
`Unsupported system_name bogus`, but a generation configuration (the
dom-interfaces configuration of that dispatch) has already been composed
before the error is raised, so a partial configuration is in fact
constructed for the unknown backend's dispatch. -/
theorem unknown_backend_config_counterexample :
    (Generate (fun _ => true) ["bogus"] false "t" "d" "h").error =
      some (GenError.unsupportedSystemName "bogus") ∧
    Event.createOptions (CreateGeneratorOptions "t" ["dom/interface", "dom", ""] [] 0 "d" false)
      ∈ (Generate (fun _ => true) ["bogus"] false "t" "d" "h").events := by
  decide

/-- C3 (amended): for an unknown backend identifier the error is raised during
dispatch before the implementation generator's configuration is built and
before any generator runs, but only after the type registry, the
dom-interfaces configuration, and the interfaces generator of that dispatch
have been constructed. -/
theorem unknown_backend_resolution_amended (runOk : Nat → Bool) (td dom html : String)
    (n : Nat) (name : String) (cache : Bool)
    (h : name ∉ ["htmlfrog", "htmldartium", "dummy", "frog"]) :
    genSystem runOk td dom html n name =
      { events :=
          [Event.newTypeRegistry n false,
           Event.createOptions
             (CreateGeneratorOptions td ["dom/interface", "dom", ""] [] n dom false),
           Event.construct (n + 1) SystemKind.interfacesSystem
             (CreateGeneratorOptions td ["dom/interface", "dom", ""] [] n dom false) none]
        nextId := n + 2
        error := some (GenError.unsupportedSystemName name) } ∧
    (Generate runOk [name] cache td dom html).error =
      some (GenError.unsupportedSystemName name) ∧
    ∀ id k, Event.run id k ∉ (Generate runOk [name] cache td dom html).events := by
  have hsys := genSystem_eq_of_unknown runOk td dom html n name h
  have hsys0 := genSystem_eq_of_unknown runOk td dom html 0 name h
  have hloop : (genLoop runOk td dom html 0 [name]).error =
      some (GenError.unsupportedSystemName name) := by
    simp only [genLoop]
    rw [hsys0]
  refine ⟨hsys, ?_, ?_⟩
  · rw [Generate_eq_of_error _ _ _ _ _ _ _ hloop]
  · rw [Generate_eq_of_error _ _ _ _ _ _ _ hloop]
    intro id k hmem
    rcases List.mem_append.mp hmem with hm | hm
    · cases cache <;> simp [stageEvents] at hm
    · have hev : (genLoop runOk td dom html 0 [name]).events =
          [Event.newTypeRegistry 0 false,
           Event.createOptions
             (CreateGeneratorOptions td ["dom/interface", "dom", ""] [] 0 dom false),
           Event.construct 1 SystemKind.interfacesSystem
             (CreateGeneratorOptions td ["dom/interface", "dom", ""] [] 0 dom false) none] := by
        simp only [genLoop]
        rw [hsys0]
      rw [hev] at hm
      simp at hm

theorem unknown_backend_resolution_amended_witness :
    genSystem (fun _ => true) "t" "d" "h" 0 "bogus" =
      { events :=
          [Event.newTypeRegistry 0 false,
           Event.createOptions
             (CreateGeneratorOptions "t" ["dom/interface", "dom", ""] [] 0 "d" false),
           Event.construct 1 SystemKind.interfacesSystem
             (CreateGeneratorOptions "t" ["dom/interface", "dom", ""] [] 0 "d" false) none]
        nextId := 2
        error := some (GenError.unsupportedSystemName "bogus") } ∧
    (Generate (fun _ => true) ["bogus"] false "t" "d" "h").error =
      some (GenError.unsupportedSystemName "bogus") ∧
    ∀ id k, Event.run id k ∉ (Generate (fun _ => true) ["bogus"] false "t" "d" "h").events :=
  unknown_backend_resolution_amended (fun _ => true) "t" "d" "h" 0 "bogus" false (by decide)

/-- C5: if a backend's run fails, the failure propagates: the trace ends at
the failing run (no later backend is resolved or run) and the terminal flush
never happens, so the run ends with no output guarantees. -/
theorem run_failure_propagates (runOk : Nat → Bool) (names : List String) (cache : Bool)
    (td dom html : String) (id : Nat) (k : SystemKind)
    (h : (Generate runOk names cache td dom html).error =
      some (GenError.generationFailed id k)) :
    (∃ p, (Generate runOk names cache td dom html).events = p ++ [Event.run id k]) ∧
    Event.flush ∉ (Generate runOk names cache td dom html).events := by
  cases herr : (genLoop runOk td dom html 0 names).error with
  | none =>
    rw [Generate_eq_of_ok _ _ _ _ _ _ herr] at h
    simp at h
  | some e =>
    rw [Generate_eq_of_error _ _ _ _ _ _ e herr] at h
    obtain rfl : e = GenError.generationFailed id k := Option.some.inj h
    obtain ⟨p, hp⟩ := genLoop_failed_last runOk td dom html names 0 id k herr
    constructor
    · rw [Generate_eq_of_error _ _ _ _ _ _ _ herr]
      exact exists_append_singleton_of_append ⟨p, hp⟩
    · rw [Generate_eq_of_error _ _ _ _ _ _ _ herr]
      intro hf
      rcases List.mem_append.mp hf with hf | hf
      · exact flush_not_in_stageEvents cache hf
      · exact flush_not_in_genLoop runOk td dom html names 0 hf

theorem run_failure_propagates_witness :
    (∃ p, (Generate (fun i => i != 1) ["dummy", "frog"] false "t" "d" "h").events =
      p ++ [Event.run 1 SystemKind.interfacesSystem]) ∧
    Event.flush ∉ (Generate (fun i => i != 1) ["dummy", "frog"] false "t" "d" "h").events :=
  run_failure_propagates (fun i => i != 1) ["dummy", "frog"] false "t" "d" "h" 1
    SystemKind.interfacesSystem (by decide)

/-- C4: for both html-style identifiers the dispatch constructs the
backend-specific implementation generator first (`HtmlFrogSystem` for
`htmlfrog`, `NativeImplementationSystem` for `htmldartium`), and only then the
`HtmlInterfacesSystem`, which receives the already-constructed implementation
generator as its constructor dependency; the only events that follow the
construction are generator runs, so the dependency is never unset or
reassigned. -/
theorem html_two_stage_construction (runOk : Nat → Bool) (td dom html : String)
    (n : Nat) (name : String)
    (h : name = "htmlfrog" ∨ name = "htmldartium") :
    ∃ runEvs,
      (genSystem runOk td dom html n name).events =
        [Event.newTypeRegistry n true,
         Event.createOptions (if name = "htmlfrog" then
             CreateGeneratorOptions td ["html/frog", "html/impl", "html", ""]
               [("DARTIUM", false), ("FROG", true)] n html true
           else
             CreateGeneratorOptions td ["dom/native", "html/dartium", "html/impl", ""]
               [("DARTIUM", true), ("FROG", false)] n html true),
         Event.construct (n + 1)
           (if name = "htmlfrog" then SystemKind.htmlFrogSystem
            else SystemKind.nativeImplementationSystem)
           (if name = "htmlfrog" then
             CreateGeneratorOptions td ["html/frog", "html/impl", "html", ""]
               [("DARTIUM", false), ("FROG", true)] n html true
           else
             CreateGeneratorOptions td ["dom/native", "html/dartium", "html/impl", ""]
               [("DARTIUM", true), ("FROG", false)] n html true) none,
         Event.createOptions
           (CreateGeneratorOptions td ["html/interface", "html/impl", "html", ""] [] n html true),
         Event.construct (n + 2) SystemKind.htmlInterfacesSystem
           (CreateGeneratorOptions td ["html/interface", "html/impl", "html", ""] [] n html true)
           (some (n + 1))] ++ runEvs ∧
      ∀ e ∈ runEvs, ∃ id k, e = Event.run id k := by
  rcases h with rfl | rfl
  · rw [genSystem_eq_of_htmlfrog]
    refine ⟨(runSystems runOk [(n + 2, SystemKind.htmlInterfacesSystem)]).events,
      by simp, runSystems_events_run _ _⟩
  · rw [genSystem_eq_of_htmldartium]
    refine ⟨(runSystems runOk [(n + 2, SystemKind.htmlInterfacesSystem)]).events,
      by simp, runSystems_events_run _ _⟩

theorem html_two_stage_construction_witness :
    ∃ runEvs,
      (genSystem (fun _ => true) "t" "d" "h" 0 "htmlfrog").events =
        [Event.newTypeRegistry 0 true,
         Event.createOptions (if "htmlfrog" = "htmlfrog" then
             CreateGeneratorOptions "t" ["html/frog", "html/impl", "html", ""]
               [("DARTIUM", false), ("FROG", true)] 0 "h" true
           else
             CreateGeneratorOptions "t" ["dom/native", "html/dartium", "html/impl", ""]
               [("DARTIUM", true), ("FROG", false)] 0 "h" true),
         Event.construct 1
           (if "htmlfrog" = "htmlfrog" then SystemKind.htmlFrogSystem
            else SystemKind.nativeImplementationSystem)
           (if "htmlfrog" = "htmlfrog" then
             CreateGeneratorOptions "t" ["html/frog", "html/impl", "html", ""]
               [("DARTIUM", false), ("FROG", true)] 0 "h" true
           else
             CreateGeneratorOptions "t" ["dom/native", "html/dartium", "html/impl", ""]
               [("DARTIUM", true), ("FROG", false)] 0 "h" true) none,
         Event.createOptions
           (CreateGeneratorOptions "t" ["html/interface", "html/impl", "html", ""] [] 0 "h" true),
         Event.construct 2 SystemKind.htmlInterfacesSystem
           (CreateGeneratorOptions "t" ["html/interface", "html/impl", "html", ""] [] 0 "h" true)
           (some 1)] ++ runEvs ∧
      ∀ e ∈ runEvs, ∃ id k, e = Event.run id k :=
  html_two_stage_construction (fun _ => true) "t" "d" "h" 0 "htmlfrog" (Or.inl rfl)

/-- C6: every error-free run flushes the buffered writer exactly once, as its
final event, and no flush happens anywhere else; in particular with an empty
backend list all pipeline stages still execute, no generator runs, and the
terminal flush is still reached without error. -/
theorem terminal_flush_exactly_once :
    (∀ (runOk : Nat → Bool) (names : List String) (cache : Bool) (td dom html : String),
      (Generate runOk names cache td dom html).error = none →
      ∃ p, (Generate runOk names cache td dom html).events = p ++ [Event.flush] ∧
        Event.flush ∉ p) ∧
    (∀ (runOk : Nat → Bool) (cache : Bool) (td dom html : String),
      Generate runOk [] cache td dom html =
        { events :=
            [Event.loadAuxiliary,
             (if cache then Event.loadFromCache else Event.load),
             Event.filterMembersWithUnidentifiedTypes,
             Event.clone,
             Event.filterInterfaces,
             Event.renameTypes webkitRenames true,
             Event.fixEventTargets,
             Event.flush]
          error := none } ∧
      ∀ id k, Event.run id k ∉ (Generate runOk [] cache td dom html).events) := by
  constructor
  · intro runOk names cache td dom html herrnone
    cases herr : (genLoop runOk td dom html 0 names).error with
    | some e =>
      rw [Generate_eq_of_error _ _ _ _ _ _ e herr] at herrnone
      simp at herrnone
    | none =>
      rw [Generate_eq_of_ok _ _ _ _ _ _ herr]
      refine ⟨stageEvents cache ++ (genLoop runOk td dom html 0 names).events, by simp, ?_⟩
      intro hf
      rcases List.mem_append.mp hf with hf | hf
      · exact flush_not_in_stageEvents cache hf
      · exact flush_not_in_genLoop runOk td dom html names 0 hf
  · intro runOk cache td dom html
    have hnil : (genLoop runOk td dom html 0 ([] : List String)).error = none := rfl
    constructor
    · rw [Generate_eq_of_ok _ _ _ _ _ _ hnil]
      simp [stageEvents, genLoop]
    · intro id k hm
      rw [Generate_eq_of_ok _ _ _ _ _ _ hnil] at hm
      cases cache <;> simp [stageEvents, genLoop] at hm

theorem terminal_flush_exactly_once_witness :
    ∃ p, (Generate (fun _ => true) ["dummy"] false "t" "d" "h").events =
      p ++ [Event.flush] ∧ Event.flush ∉ p :=
  terminal_flush_exactly_once.1 (fun _ => true) ["dummy"] false "t" "d" "h" (by decide)

/-- C7: in a plain dispatch (`dummy` or `frog`) the interfaces configuration
and the implementation configuration carry the same freshly allocated type
registry, and the back-reference from the implementation generator to the
interfaces generator is set before either generator runs; across the whole
run the allocated type-registry ids are strictly increasing, so no type
registry is ever shared across backend iterations. -/
theorem plain_backend_registry_isolation :
    (∀ (runOk : Nat → Bool) (td dom html : String) (n : Nat) (name : String),
      name = "dummy" ∨ name = "frog" →
      ∃ runEvs,
        (genSystem runOk td dom html n name).events =
          [Event.newTypeRegistry n false,
           Event.createOptions
             (CreateGeneratorOptions td ["dom/interface", "dom", ""] [] n dom false),
           Event.construct (n + 1) SystemKind.interfacesSystem
             (CreateGeneratorOptions td ["dom/interface", "dom", ""] [] n dom false) none,
           Event.createOptions (CreateGeneratorOptions td
             (if name = "dummy" then ["dom/dummy", "dom", ""] else ["dom/frog", "dom", ""])
             [] n dom false),
           Event.construct (n + 2)
             (if name = "dummy" then SystemKind.dummyImplementationSystem
              else SystemKind.frogSystem)
             (CreateGeneratorOptions td
               (if name = "dummy" then ["dom/dummy", "dom", ""] else ["dom/frog", "dom", ""])
               [] n dom false) none,
           Event.setInterfaceSystem (n + 2) (n + 1)] ++ runEvs ∧
        ∀ e ∈ runEvs, ∃ id k, e = Event.run id k) ∧
    (∀ (runOk : Nat → Bool) (names : List String) (cache : Bool) (td dom html : String),
      List.Pairwise (· < ·) (registryIds (Generate runOk names cache td dom html).events)) := by
  constructor
  · intro runOk td dom html n name h
    rcases h with rfl | rfl
    · rw [genSystem_eq_of_dummy]
      refine ⟨(runSystems runOk [(n + 1, SystemKind.interfacesSystem),
        (n + 2, SystemKind.dummyImplementationSystem)]).events,
        by simp, runSystems_events_run _ _⟩
    · rw [genSystem_eq_of_frog]
      refine ⟨(runSystems runOk [(n + 1, SystemKind.interfacesSystem),
        (n + 2, SystemKind.frogSystem)]).events,
        by simp, runSystems_events_run _ _⟩
  · intro runOk names cache td dom html
    cases herr : (genLoop runOk td dom html 0 names).error with
    | some e =>
      rw [Generate_eq_of_error _ _ _ _ _ _ e herr]
      show List.Pairwise _ (registryIds (stageEvents cache ++ _))
      rw [registryIds_append, stageEvents_registryIds, List.nil_append]
      exact genLoop_registryIds_pairwise runOk td dom html names 0
    | none =>
      rw [Generate_eq_of_ok _ _ _ _ _ _ herr]
      show List.Pairwise _
        (registryIds (stageEvents cache ++
          (genLoop runOk td dom html 0 names).events ++ [Event.flush]))
      rw [registryIds_append, registryIds_append, stageEvents_registryIds, List.nil_append]
      have hfl : registryIds [Event.flush] = [] := rfl
      rw [hfl, List.append_nil]
      exact genLoop_registryIds_pairwise runOk td dom html names 0

theorem plain_backend_registry_isolation_witness :
    (∃ runEvs,
      (genSystem (fun _ => true) "t" "d" "h" 0 "dummy").events =
        [Event.newTypeRegistry 0 false,
         Event.createOptions
           (CreateGeneratorOptions "t" ["dom/interface", "dom", ""] [] 0 "d" false),
         Event.construct 1 SystemKind.interfacesSystem
           (CreateGeneratorOptions "t" ["dom/interface", "dom", ""] [] 0 "d" false) none,
         Event.createOptions (CreateGeneratorOptions "t"
           (if "dummy" = "dummy" then ["dom/dummy", "dom", ""] else ["dom/frog", "dom", ""])
           [] 0 "d" false),
         Event.construct 2
           (if "dummy" = "dummy" then SystemKind.dummyImplementationSystem
            else SystemKind.frogSystem)
           (CreateGeneratorOptions "t"
             (if "dummy" = "dummy" then ["dom/dummy", "dom", ""] else ["dom/frog", "dom", ""])
             [] 0 "d" false) none,
         Event.setInterfaceSystem 2 1] ++ runEvs ∧
      ∀ e ∈ runEvs, ∃ id k, e = Event.run id k) ∧
    List.Pairwise (· < ·)
      (registryIds (Generate (fun _ => true) ["dummy", "frog"] false "t" "d" "h").events) :=
  ⟨(plain_backend_registry_isolation.1 (fun _ => true) "t" "d" "h" 0 "dummy" (Or.inl rfl)),
   (plain_backend_registry_isolation.2 (fun _ => true) ["dummy", "frog"] false "t" "d" "h")⟩

/-- C8: configuration composition is deterministic and stateless — the
configuration produced for a given argument tuple is one and the same value
no matter what other compositions happen before, between, or after it, and
its template-path lookup order is exactly the path list it was given. -/
theorem compose_configuration_independent (p₁ s₁ p₂ s₂ : List ComposeArgs)
    (a : ComposeArgs) :
    ∃ o, composeAll (p₁ ++ a :: s₁) = composeAll p₁ ++ o :: composeAll s₁ ∧
      composeAll (p₂ ++ a :: s₂) = composeAll p₂ ++ o :: composeAll s₂ ∧
      o.templateLoader.searchPaths = a.templatePaths ∧
      o = CreateGeneratorOptions a.templateDir a.templatePaths a.conditions
        a.typeRegistry a.outputDir a.renamer := by
  refine ⟨CreateGeneratorOptions a.templateDir a.templatePaths a.conditions
    a.typeRegistry a.outputDir a.renamer, ?_, ?_, rfl, rfl⟩ <;> simp [composeAll]

theorem genSystem_construct_conditions (runOk : Nat → Bool) (td dom html : String)
    (n : Nat) (name : String) :
    ∀ id k opts dep,
      Event.construct id k opts dep ∈ (genSystem runOk td dom html n name).events →
      opts.templateLoader.conditions = condFlags k := by
  by_cases h1 : name = "htmlfrog"
  · subst h1
    rw [genSystem_eq_of_htmlfrog]
    intro id k opts dep hm
    rcases List.mem_append.mp hm with hm | hm
    · simp at hm
      rcases hm with ⟨rfl, rfl, rfl, rfl⟩ | ⟨rfl, rfl, rfl, rfl⟩ <;> rfl
    · obtain ⟨i2, k2, heq⟩ := runSystems_events_run _ _ _ hm
      simp at heq
  by_cases h2 : name = "htmldartium"
  · subst h2
    rw [genSystem_eq_of_htmldartium]
    intro id k opts dep hm
    rcases List.mem_append.mp hm with hm | hm
    · simp at hm
      rcases hm with ⟨rfl, rfl, rfl, rfl⟩ | ⟨rfl, rfl, rfl, rfl⟩ <;> rfl
    · obtain ⟨i2, k2, heq⟩ := runSystems_events_run _ _ _ hm
      simp at heq
  by_cases h3 : name = "dummy"
  · subst h3
    rw [genSystem_eq_of_dummy]
    intro id k opts dep hm
    rcases List.mem_append.mp hm with hm | hm
    · simp at hm
      rcases hm with ⟨rfl, rfl, rfl, rfl⟩ | ⟨rfl, rfl, rfl, rfl⟩ <;> rfl
    · obtain ⟨i2, k2, heq⟩ := runSystems_events_run _ _ _ hm
      simp at heq
  by_cases h4 : name = "frog"
  · subst h4
    rw [genSystem_eq_of_frog]
    intro id k opts dep hm
    rcases List.mem_append.mp hm with hm | hm
    · simp at hm
      rcases hm with ⟨rfl, rfl, rfl, rfl⟩ | ⟨rfl, rfl, rfl, rfl⟩ <;> rfl
    · obtain ⟨i2, k2, heq⟩ := runSystems_events_run _ _ _ hm
      simp at heq
  rw [genSystem_eq_of_unknown runOk td dom html n name (by simp [h1, h2, h3, h4])]
  intro id k opts dep hm
  simp at hm
  obtain ⟨rfl, rfl, rfl, rfl⟩ := hm
  rfl

theorem genLoop_construct_conditions (runOk : Nat → Bool) (td dom html : String) :
    ∀ (names : List String) (n : Nat) (id : Nat) (k : SystemKind)
      (opts : GeneratorOptions) (dep : Option Nat),
      Event.construct id k opts dep ∈ (genLoop runOk td dom html n names).events →
      opts.templateLoader.conditions = condFlags k := by
  intro names
  induction names with
  | nil => intro n id k opts dep h; simp [genLoop] at h
  | cons name rest ih =>
    intro n id k opts dep h
    simp only [genLoop] at h
    cases hd : (genSystem runOk td dom html n name).error with
    | some e =>
      rw [hd] at h
      exact genSystem_construct_conditions runOk td dom html n name id k opts dep h
    | none =>
      rw [hd] at h
      rcases List.mem_append.mp h with h | h
      · exact genSystem_construct_conditions runOk td dom html n name id k opts dep h
      · exact ih _ id k opts dep h

/-- C9: every generator is constructed over a configuration whose
condition-flag mapping is empty, except the two html-style implementation
generators, whose flags are fixed by the identifier: `DARTIUM=False, FROG=True`
for `HtmlFrogSystem` (htmlfrog) and `DARTIUM=True, FROG=False` for
`NativeImplementationSystem` (htmldartium). -/
theorem construct_condition_flags (runOk : Nat → Bool) (names : List String)
    (cache : Bool) (td dom html : String) :
    ∀ id k opts dep,
      Event.construct id k opts dep ∈ (Generate runOk names cache td dom html).events →
      opts.templateLoader.conditions = condFlags k := by
  intro id k opts dep h
  cases herr : (genLoop runOk td dom html 0 names).error with
  | some e =>
    rw [Generate_eq_of_error _ _ _ _ _ _ e herr] at h
    rcases List.mem_append.mp h with h | h
    · cases cache <;> simp [stageEvents] at h
    · exact genLoop_construct_conditions runOk td dom html names 0 id k opts dep h
  | none =>
    rw [Generate_eq_of_ok _ _ _ _ _ _ herr] at h
    rcases List.mem_append.mp h with h | h
    · rcases List.mem_append.mp h with h | h
      · cases cache <;> simp [stageEvents] at h
      · exact genLoop_construct_conditions runOk td dom html names 0 id k opts dep h
    · simp at h

theorem construct_condition_flags_witness :
    (CreateGeneratorOptions "t" ["html/frog", "html/impl", "html", ""]
      [("DARTIUM", false), ("FROG", true)] 0 "h" true).templateLoader.conditions =
      condFlags SystemKind.htmlFrogSystem :=
  construct_condition_flags (fun _ => true) ["htmlfrog"] false "t" "d" "h" 1
    SystemKind.htmlFrogSystem
    (CreateGeneratorOptions "t" ["html/frog", "html/impl", "html", ""]
      [("DARTIUM", false), ("FROG", true)] 0 "h" true) none (by decide)

/-- C10 counterexample: the `--output-dir` override goes through Python `or`,
which treats the empty string as absent; with override `""` supplied the two
output directories are neither equal to the override nor equal to each other,
refuting the claim that any supplied override collapses both directories. -/
theorem output_dir_empty_counterexample :
    ¬(mainDomOutputDir "x" (some "") = "" ∧ mainHtmlOutputDir "x" (some "") = "") ∧
    mainDomOutputDir "x" (some "") ≠ mainHtmlOutputDir "x" (some "") := by
  decide

/-- C10 (amended): when `--output-dir` is supplied with a non-empty value,
both the dom and the html output directory equal that single directory; when
it is absent — or supplied as the empty string, which Python `or` treats as
absent — the two directories take their two distinct defaults. -/
theorem output_dir_override_amended :
    (∀ (cur s : String), s ≠ "" →
      mainDomOutputDir cur (some s) = s ∧ mainHtmlOutputDir cur (some s) = s) ∧
    (∀ cur : String, mainDomOutputDir cur none ≠ mainHtmlOutputDir cur none) ∧
    (∀ cur : String, mainDomOutputDir cur (some "") ≠ mainHtmlOutputDir cur (some "")) := by
  refine ⟨?_, ?_, ?_⟩
  · intro cur s hs
    constructor <;> simp [mainDomOutputDir, mainHtmlOutputDir, pyOrDefault, hs]
  · intro cur h
    simp only [mainDomOutputDir, mainHtmlOutputDir, pyOrDefault] at h
    have hl := congrArg String.length h
    simp [osJoin, String.length_append] at hl
    exact absurd hl (by decide)
  · intro cur h
    simp only [mainDomOutputDir, mainHtmlOutputDir, pyOrDefault] at h
    have hl := congrArg String.length h
    simp [osJoin, String.length_append] at hl
    exact absurd hl (by decide)

theorem output_dir_override_amended_witness :
    (mainDomOutputDir "x" (some "out") = "out" ∧
      mainHtmlOutputDir "x" (some "out") = "out") ∧
    mainDomOutputDir "x" none ≠ mainHtmlOutputDir "x" none :=
  ⟨output_dir_override_amended.1 "x" "out" (by decide),
   output_dir_override_amended.2.1 "x"⟩

end DartDomGenerator
